import Mathlib

/-!
Shallow embedding of the price-tracker aggregation core (backend/src/scrapers
and backend/src/services), together with proofs of the specification claims.

Modelling conventions:
  - JavaScript strings are modelled as `List Char` (all the strings involved
    are BMP-only, where JS UTF-16 length and Lean character counts agree);
    `String` values are converted at the boundary via `String.data`.
  - JS numbers are modelled as `ℚ` (every price arising here is a decimal
    produced by `parseFloat` on digit/comma/dot text; no claim involves
    floating-point rounding).  A possibly-`null`/`undefined`/`NaN` price is
    `Option ℚ` with `none` for the non-numeric cases; JS truthiness of a
    number is `v ≠ 0`.
  - Fallible fetches are `Except String α` carrying the JS error message.
  - All definitions are structurally recursive and executable, so concrete
    runs are checked by `decide`/`rfl`.
-/

set_option allowUnsafeReducibility true

attribute [local semireducible] Rat.mul Rat.add Rat.div Rat.sub Rat.neg Rat.inv Rat.blt

namespace PriceTracker

/-! ## JS string primitives -/

/-- JS whitespace class (`\s`, and the set trimmed by `String.prototype.trim`),
restricted to the characters that can occur in the modelled inputs. -/
def jsWs (c : Char) : Bool := c.isWhitespace

/-- JS `String.prototype.trim` on a character list. -/
def trimChars (l : List Char) : List Char :=
  ((l.dropWhile jsWs).reverse.dropWhile jsWs).reverse

/-- JS `String.prototype.toLowerCase` (ASCII letters; other characters in the
modelled inputs are unaffected). -/
def lowerChars (l : List Char) : List Char := l.map Char.toLower

/-- Does `l` start with `n`? (helper for substring containment). -/
def startsWithChars : List Char → List Char → Bool
  | _, [] => true
  | [], _ :: _ => false
  | c :: cs, d :: ds => c = d && startsWithChars cs ds

/-- JS `String.prototype.includes`: `n` occurs as a contiguous substring of `l`. -/
def hasSubChars : List Char → List Char → Bool
  | l, n =>
    startsWithChars l n ||
      match l with
      | [] => false
      | _ :: cs => hasSubChars cs n

/-- JS `includes` on `String` values. -/
def jsIncludes (s sub : String) : Bool := hasSubChars s.data sub.data

/-- Replace every maximal whitespace run by a single space:
JS `replace(/\s+/g, ' ')`. -/
def collapseWs : List Char → List Char
  | [] => []
  | [c] => if jsWs c then [' '] else [c]
  | c1 :: c2 :: rest =>
    if jsWs c1 then
      if jsWs c2 then collapseWs (c2 :: rest)
      else ' ' :: collapseWs (c2 :: rest)
    else c1 :: collapseWs (c2 :: rest)

/-- Split on single spaces, JS `split(' ')` (the inputs it is applied to are
space-collapsed, so only the single-space separator occurs). -/
def splitSpace : List Char → List (List Char)
  | [] => [[]]
  | c :: rest =>
    let r := splitSpace rest
    if c = ' ' then [] :: r
    else match r with
      | [] => [[c]]
      | w :: ws => (c :: w) :: ws

/-! ## JS number parsing -/

/-- Read a maximal run of decimal digits: returns (value, digit count, rest). -/
def readDigits : ℕ → ℕ → List Char → ℕ × ℕ × List Char
  | acc, n, [] => (acc, n, [])
  | acc, n, c :: cs =>
    if c.isDigit then readDigits (acc * 10 + (c.toNat - 48)) (n + 1) cs
    else (acc, n, c :: cs)

/-- JS `parseFloat`, for inputs without exponent notation or `Infinity`
literals (the price pipeline only ever feeds it digit/comma/dot text, where
these cases cannot arise): optional sign, integer digits, optional fraction;
`none` models `NaN`. -/
def jsParseFloat (l : List Char) : Option ℚ :=
  let l1 := l.dropWhile jsWs
  let sl : ℚ × List Char :=
    match l1 with
    | '+' :: r => (1, r)
    | '-' :: r => (-1, r)
    | _ => (1, l1)
  let (ip, n, rest) := readDigits 0 0 sl.2
  match rest with
  | '.' :: r2 =>
    let (fp, m, _) := readDigits 0 0 r2
    if n = 0 ∧ m = 0 then none
    else some (sl.1 * ((ip : ℚ) + (fp : ℚ) / (10 : ℚ) ^ m))
  | _ => if n = 0 then none else some (sl.1 * (ip : ℚ))

namespace BaseScraper

/-! ## BaseScraper.extractPrice (backend/src/scrapers/BaseScraper.js)

The two price regexes `/₹\s*([\d,]+(?:\.\d{1,2})?)/g` and
`/Rs\.?\s*([\d,]+(?:\.\d{1,2})?)/gi` are embedded as explicit scanners with
the same greedy/backtracking behaviour and the same `lastIndex` advance (a
failed start position advances by one character, a match resumes after its
end). -/

/-- The shared tail `([\d,]+(?:\.\d{1,2})?)` of both price patterns: a
non-empty greedy run of digits/commas, then optionally a dot with one or two
digits (two if available).  Returns the capture and the rest of the input. -/
def numTail (l : List Char) : Option (List Char × List Char) :=
  let sp := l.span (fun c => c.isDigit || c = ',')
  if sp.1 = [] then none
  else
    match sp.2 with
    | '.' :: d1 :: rest2 =>
      if d1.isDigit then
        match rest2 with
        | d2 :: rest3 =>
          if d2.isDigit then some (sp.1 ++ ['.', d1, d2], rest3)
          else some (sp.1 ++ ['.', d1], rest2)
        | [] => some (sp.1 ++ ['.', d1], [])
      else some (sp.1, sp.2)
    | _ => some (sp.1, sp.2)

/-- One attempt of `/₹\s*([\d,]+(?:\.\d{1,2})?)/` at the current position. -/
def matchRupeeAt : List Char → Option (List Char × List Char)
  | '₹' :: rest => numTail (rest.dropWhile jsWs)
  | _ => none

/-- One attempt of `/Rs\.?\s*([\d,]+(?:\.\d{1,2})?)/i` at the current
position; the optional dot is greedy, with backtracking if the tail fails. -/
def matchRsAt : List Char → Option (List Char × List Char)
  | c1 :: c2 :: rest =>
    if (c1 = 'R' ∨ c1 = 'r') ∧ (c2 = 's' ∨ c2 = 'S') then
      match rest with
      | '.' :: rest2 =>
        (numTail (rest2.dropWhile jsWs)).orElse
          (fun _ => numTail (rest.dropWhile jsWs))
      | _ => numTail (rest.dropWhile jsWs)
    else none
  | _ => none

/-- Global regex scan (`while ((match = pattern.exec(str)) !== null)`): try the
matcher at each position, resuming after each match.  Every successful match
consumes at least one character, so fuel equal to the input length suffices. -/
def scanMatches (tryAt : List Char → Option (List Char × List Char)) :
    ℕ → List Char → List (List Char)
  | 0, _ => []
  | _ + 1, [] => []
  | fuel + 1, c :: cs =>
    match tryAt (c :: cs) with
    | some (cap, rest) => cap :: scanMatches tryAt fuel rest
    | none => scanMatches tryAt fuel cs

/-- All values of one pattern over the whole string:
`parseFloat(match[1].replace(/,/g, ''))`, dropping `NaN` results. -/
def matchValues (tryAt : List Char → Option (List Char × List Char))
    (l : List Char) : List ℚ :=
  (scanMatches tryAt l.length l).filterMap
    (fun cap => jsParseFloat (cap.filter (fun c => c ≠ ',')))

/-- All symbol-anchored price values found by strategy 1, in the code's
collection order (all `₹` matches, then all `Rs` matches). -/
def symbolMatchValues (l : List Char) : List ℚ :=
  matchValues matchRupeeAt l ++ matchValues matchRsAt l

/-- The `candidatePrices` array: symbol-anchored values passing
`!isNaN(val) && val >= 100`. -/
def candidatePrices (l : List Char) : List ℚ :=
  (symbolMatchValues l).filter (fun v => decide (100 ≤ v))

/-- Strategy 2 cleanup step 1: `replace(/[₹$,\s]/g, '')`. -/
def stripCurrencyChars (l : List Char) : List Char :=
  l.filter (fun c => ¬(c = '₹' ∨ c = '$' ∨ c = ',' ∨ jsWs c))

/-- Strategy 2 cleanup step 2: `replace(/Rs\.?/gi, '')` (greedy optional dot,
left-to-right, non-overlapping). -/
def stripRs : List Char → List Char
  | c1 :: c2 :: '.' :: rest =>
    if (c1 = 'R' ∨ c1 = 'r') ∧ (c2 = 's' ∨ c2 = 'S') then stripRs rest
    else c1 :: stripRs (c2 :: '.' :: rest)
  | c1 :: c2 :: rest =>
    if (c1 = 'R' ∨ c1 = 'r') ∧ (c2 = 's' ∨ c2 = 'S') then stripRs rest
    else c1 :: stripRs (c2 :: rest)
  | l => l

/-- The thousand-separator collapse `replace(/\.(\d{3})(?!\d)/g, '$1')`:
a dot followed by exactly three digits (and no fourth) is dropped. -/
def collapseDots : List Char → List Char
  | '.' :: d1 :: d2 :: d3 :: rest =>
    if d1.isDigit && d2.isDigit && d3.isDigit && !(rest.headD ' ').isDigit then
      d1 :: d2 :: d3 :: collapseDots rest
    else '.' :: collapseDots (d1 :: d2 :: d3 :: rest)
  | c :: rest => c :: collapseDots rest
  | [] => []

/-- `BaseScraper.extractPrice` on a non-null input string (the `null`
input guard returns `null` upstream of the string conversion). -/
def extractPriceL (priceText : List Char) : Option ℚ :=
  let str := trimChars priceText
  if str.length < 2 then none
  else
    match (candidatePrices str).insertionSort (· ≤ ·) with
    | c :: _ => some c
    | [] =>
      let cleaned := stripRs (stripCurrencyChars str)
      if cleaned = [] then none
      else
        let normalized := collapseDots cleaned
        match jsParseFloat normalized with
        | none => none
        | some price => if price ≤ 0 ∨ price < 100 then none else some price

/-- `extractPrice` on `String` values. -/
def extractPrice (priceText : String) : Option ℚ := extractPriceL priceText.data

end BaseScraper

/-- JS `new Set(array)` as a duplicate-free list keeping first occurrences. -/
def jsSetAux (acc : List String) : List String → List String
  | [] => acc.reverse
  | x :: rest =>
    if acc.contains x then jsSetAux acc rest else jsSetAux (x :: acc) rest

/-- JS `new Set(array)` (only size and membership of the result are used). -/
def jsSetList (l : List String) : List String := jsSetAux [] l

/-! ## Canonical product schema (BaseScraper.normalizeResults) -/

/-- A JS number that may be `null`/`undefined` is `Option ℚ`; a number is
truthy iff it is nonzero (`NaN` never reaches these fields: `extractPrice`
returns `null` instead). -/
def jsPriceTruthy : Option ℚ → Bool
  | none => false
  | some v => decide (v ≠ 0)

/-- Numeric coercion used where JS compares a guarded price (`null` would
coerce to 0, but every use is behind a truthiness guard). -/
def priceVal (p : Option ℚ) : ℚ := p.getD 0

/-- The canonical product record produced by `BaseScraper.normalizeResults`
(every result across all scrapers uses this shape; the legacy/canonical
duplicate fields are kept).  JS `null`/`undefined` string fields collapse to
`""` where only their falsiness is ever observed (`title`, `product_name`),
and to `Option String` where `null` is stored explicitly. -/
structure Product where
  source : String := ""
  platform : String := ""
  siteName : String := ""
  product_name : String := ""
  title : String := ""
  productTitle : String := ""
  price : Option ℚ := none
  currency : String := ""
  product_url : String := ""
  url : String := ""
  productUrl : String := ""
  image_url : Option String := none
  imageUrl : Option String := none
  availability : Bool := true
  inStock : Bool := true
  specs : String := ""
  description : String := ""
deriving Repr, DecidableEq

/-- JS `product.title || product.product_name || ''`. -/
def jsTitleOf (p : Product) : String :=
  if p.title = "" then p.product_name else p.title

namespace BaseScraper

/-- A raw scraper search result before normalization (the fields
`normalizeResults` reads). -/
structure RawResult where
  title : Option String := none
  price : Option ℚ := none
  url : String := ""
  imageUrl : Option String := none
  availability : Option String := none
  specs : Option String := none
  description : Option String := none
deriving Repr, DecidableEq

/-- `cleanTitle`: trim, collapse whitespace, truncate to 500 characters
(`""` for a falsy title). -/
def cleanTitle : Option String → String
  | none => ""
  | some t => if t = "" then "" else String.mk ((collapseWs (trimChars t.data)).take 500)

/-- JS `x || null` for an optional string (empty string is falsy). -/
def jsOrNull : Option String → Option String
  | none => none
  | some s => if s = "" then none else some s

/-- The price guard shared by `normalizeResults` and the search service:
`!price || price < 100` rejects; a result is kept iff its price is a truthy
number `≥ 100`. -/
def priceKeep (p : Option ℚ) : Bool :=
  jsPriceTruthy p && decide (100 ≤ priceVal p)

/-- The `map` body of `normalizeResults`: one raw result into the canonical
schema. -/
def normalizeOne (platformName : String) (r : RawResult) : Product :=
  { source := platformName
    platform := platformName
    siteName := platformName
    product_name := cleanTitle r.title
    title := cleanTitle r.title
    productTitle := cleanTitle r.title
    price := r.price
    currency := "INR"
    product_url := r.url
    url := r.url
    productUrl := r.url
    image_url := jsOrNull r.imageUrl
    imageUrl := jsOrNull r.imageUrl
    availability := !(r.availability = some "out_of_stock")
    inStock := !(r.availability = some "out_of_stock")
    specs := r.specs.getD ""
    description :=
      match jsOrNull r.description with
      | some d => d
      | none => cleanTitle r.title }

/-- `BaseScraper.normalizeResults`: filter out invalid prices, then map into
the canonical schema. -/
def normalizeResults (platformName : String) (results : List RawResult) :
    List Product :=
  (results.filter (fun r => priceKeep r.price)).map (normalizeOne platformName)

end BaseScraper

namespace ProductMatcher

/-! ## ProductMatcher (backend/src/utils/productMatcher.js) -/

/-- The brand keyword table (`brandMap`), in insertion order. -/
def brandMap : List (String × List String) :=
  [("apple", ["iphone", "macbook", "ipad", "airpods", "apple watch"]),
   ("samsung", ["galaxy", "samsung"]),
   ("oneplus", ["oneplus"]),
   ("xiaomi", ["xiaomi", "redmi", "poco"]),
   ("realme", ["realme"]),
   ("oppo", ["oppo"]),
   ("vivo", ["vivo"]),
   ("google", ["pixel"]),
   ("motorola", ["moto", "motorola"]),
   ("nothing", ["nothing"]),
   ("asus", ["asus", "rog"]),
   ("dell", ["dell", "xps", "inspiron"]),
   ("hp", ["hp", "pavilion", "omen"]),
   ("lenovo", ["lenovo", "thinkpad", "yoga"]),
   ("acer", ["acer", "aspire"]),
   ("msi", ["msi"]),
   ("microsoft", ["surface"]),
   ("sony", ["sony", "wh-", "wf-"]),
   ("jbl", ["jbl"]),
   ("bose", ["bose"]),
   ("boat", ["boat"]),
   ("skullcandy", ["skullcandy"])]

/-- The filler words removed by `normalizeTitle`. -/
def fillerWords : List String :=
  ["in", "for", "with", "and", "the", "a", "an", "of", "to", "official"]

/-- Intercalate a single space (inverse of `splitSpace`). -/
def joinSpaces : List (List Char) → List Char
  | [] => []
  | [w] => w
  | w :: ws => w ++ ' ' :: joinSpaces ws

/-- The filler-removal `replace(/\b(in|for|…)\b/g, '')`.  At this point the
string contains only lowercase alphanumerics and single spaces, so the word
boundaries are exactly the space-delimited token edges; a removed token
leaves its surrounding spaces in place (matching the JS behaviour). -/
def removeFillers (l : List Char) : List Char :=
  joinSpaces ((splitSpace l).map
    (fun w => if fillerWords.contains (String.mk w) then [] else w))

/-- `ProductMatcher.normalizeTitle`: lowercase, trim, delete special
characters, collapse whitespace, remove filler words, trim. -/
def normalizeTitle (title : String) : String :=
  if title = "" then ""
  else
    String.mk (trimChars (removeFillers (collapseWs
      ((trimChars (lowerChars title.data)).filter
        (fun c => ('a' ≤ c ∧ c ≤ 'z') ∨ c.isDigit ∨ jsWs c)))))

/-- `extractBrand`: first brand whose keyword occurs in the normalized
title. -/
def extractBrand (title : String) : Option String :=
  let normalized := normalizeTitle title
  brandMap.findSome? (fun e =>
    if e.2.any (fun kw => jsIncludes normalized kw) then some e.1 else none)

/-- JS `\w` word character. -/
def isWordChar (c : Char) : Bool :=
  ('a' ≤ c ∧ c ≤ 'z') ∨ ('A' ≤ c ∧ c ≤ 'Z') ∨ c.isDigit ∨ c = '_'

/-- The optional model suffixes `(?:pro|max|plus|ultra|standard)?`. -/
def modelSuffixes : List String := ["pro", "max", "plus", "ultra", "standard"]

/-- One attempt of the model regex
`\b([a-z0-9]+\s+(?:pro|max|plus|ultra|standard)?)\b` with the match starting
at the head of `l` (the caller guarantees the leading word boundary).  The
input is a `normalizeTitle` output, so it contains only lowercase
alphanumerics and spaces. -/
def modelAt (l : List Char) : Option (List Char) :=
  let run := l.takeWhile (fun c => ('a' ≤ c ∧ c ≤ 'z') ∨ c.isDigit)
  if run = [] then none
  else
    let rest := l.drop run.length
    let sp := rest.takeWhile jsWs
    if sp = [] then none
    else
      let rest2 := rest.drop sp.length
      let nxt := rest2.takeWhile (fun c => ('a' ≤ c ∧ c ≤ 'z') ∨ c.isDigit)
      if modelSuffixes.contains (String.mk nxt) then some (run ++ sp ++ nxt)
      else if rest2 = [] then none
      else some (run ++ sp)

/-- Scan for the first model match; the flag records whether the previous
character was a non-word character (so the next position starts at a word
boundary). -/
def modelScan : Bool → List Char → Option (List Char)
  | _, [] => none
  | prevNonWord, c :: cs =>
    if prevNonWord && isWordChar c then
      match modelAt (c :: cs) with
      | some cap => some cap
      | none => modelScan false cs
    else modelScan (!(isWordChar c)) cs

/-- `extractModel`: first match of the model pattern over the normalized
title, trimmed. -/
def extractModel (title : String) : Option String :=
  match modelScan true (normalizeTitle title).data with
  | some cap => some (String.mk (trimChars cap))
  | none => none

/-- Known colors accepted by `extractColor`. -/
def knownColors : List String :=
  ["black", "white", "blue", "red", "green", "gold", "silver", "grey", "gray",
   "pink", "purple", "orange", "yellow", "teal", "coral", "ultramarine",
   "midnight", "starlight", "titanium", "graphite", "sierra", "alpine",
   "natural", "desert", "cream", "ivory", "lavender", "bronze", "navy",
   "space gray", "space grey", "rose gold"]

/-- Lazy extension `[\w\s]*?` of the color capture, stopping at the first
`,` or `)`. -/
def colorCapExtend (acc : List Char) : List Char → Option (List Char)
  | [] => none
  | d :: rest =>
    if d = ',' ∨ d = ')' then some acc.reverse
    else if isWordChar d ∨ jsWs d then colorCapExtend (d :: acc) rest
    else none

/-- One attempt of `/\((\w[\w\s]*?)(?:,|\))/` at the current position. -/
def colorCapAt : List Char → Option (List Char)
  | '(' :: c :: rest => if isWordChar c then colorCapExtend [c] rest else none
  | _ => none

/-- First color-pattern match over the raw title. -/
def colorScan : List Char → Option (List Char)
  | [] => none
  | c :: cs =>
    match colorCapAt (c :: cs) with
    | some cap => some cap
    | none => colorScan cs

/-- `extractColor`: the first parenthesised fragment, trimmed and lowercased,
if it is a known color. -/
def extractColor (title : String) : Option String :=
  match colorScan title.data with
  | some cap =>
    let candidate := String.mk (lowerChars (trimChars cap))
    if knownColors.contains candidate then some candidate else none
  | none => none

/-- One attempt of `/(\d+)\s*(gb|tb|mb)/i` at the current position. -/
def storageAt (l : List Char) : Option (String × String) :=
  let ds := l.takeWhile Char.isDigit
  if ds = [] then none
  else
    match (l.drop ds.length).dropWhile jsWs with
    | u1 :: u2 :: _ =>
      let ul := [u1.toLower, u2.toLower]
      if ul = ['g', 'b'] ∨ ul = ['t', 'b'] ∨ ul = ['m', 'b'] then
        some (String.mk ds, String.mk ul)
      else none
    | _ => none

/-- First storage-pattern match over the raw title. -/
def storageScan : List Char → Option (String × String)
  | [] => none
  | c :: cs =>
    match storageAt (c :: cs) with
    | some r => some r
    | none => storageScan cs

/-- `extractStorage`: normalized `"128gb"`-style storage token, if any. -/
def extractStorage (title : String) : Option String :=
  match storageScan title.data with
  | some (d, u) => some (d ++ u)
  | none => none

/-- `calculateTitleSimilarity`: percentage of shared words (length `> 2`)
relative to the larger word set. -/
def calculateTitleSimilarity (title1 title2 : String) : ℚ :=
  let norm1 := normalizeTitle title1
  let norm2 := normalizeTitle title2
  if norm1 = norm2 then 100
  else
    let words1 := jsSetList
      (((splitSpace norm1.data).map String.mk).filter (fun w => 2 < w.length))
    let words2 := jsSetList
      (((splitSpace norm2.data).map String.mk).filter (fun w => 2 < w.length))
    if words1.length = 0 ∨ words2.length = 0 then 0
    else
      let nMatches := (words1.filter (fun w => words2.contains w)).length
      ((nMatches : ℚ) / ((max words1.length words2.length : ℕ) : ℚ)) * 100

/-- Truthiness-guarded disagreement check `x && y && x !== y` for two
extracted attributes. -/
def bothDiffer (a b : Option String) : Bool :=
  match a, b with
  | some x, some y => x ≠ y
  | _, _ => false

/-- `ProductMatcher.doProductsMatch`: two products are true duplicates. -/
def doProductsMatch (product1 product2 : Product) : Bool :=
  let title1 := jsTitleOf product1
  let title2 := jsTitleOf product2
  if calculateTitleSimilarity title1 title2 < 70 then false
  else if bothDiffer (extractBrand title1) (extractBrand title2) then false
  else if bothDiffer (extractColor title1) (extractColor title2) then false
  else if bothDiffer (extractStorage title1) (extractStorage title2) then false
  else if bothDiffer (extractModel title1) (extractModel title2) then false
  else true

/-- One step of the `deduplicateByWebsite` loop.  The JS code maintains two
arrays `seen` and `deduplicated` that receive identical pushes and identical
index assignments, so they are equal throughout; the state is therefore a
single list.  A duplicate found at index `i` replaces the entry when it is
strictly cheaper (both prices truthy). -/
def dedupInsert (acc : List Product) (product : Product) : List Product :=
  match acc.findIdx? (fun s => doProductsMatch product s) with
  | some i =>
    let s := acc.getD i product
    if jsPriceTruthy product.price && jsPriceTruthy s.price &&
        decide (priceVal product.price < priceVal s.price) then
      acc.set i product
    else acc
  | none => acc ++ [product]

/-- `ProductMatcher.deduplicateByWebsite`. -/
def deduplicateByWebsite (products : List Product) : List Product :=
  if products.length ≤ 1 then products
  else products.foldl dedupInsert []

end ProductMatcher

namespace SearchService

/-! ## SearchService text utilities and relevance scoring
(backend/src/services/searchService.js) -/

/-- Stop words removed during tokenization. -/
def stopWords : List String :=
  ["for", "with", "and", "the", "a", "an", "of", "to", "in", "on", "by",
   "from", "new", "latest", "best", "buy", "online", "india", "price",
   "sale", "deal", "offer", "discount", "combo", "pack", "set", "piece",
   "is", "it", "at", "or", "be", "this", "that", "was", "are", "were",
   "has", "have", "had", "do", "does", "did", "will", "would", "could",
   "should", "may", "might", "can", "shall", "get", "got", "make"]

/-- Known product brands. -/
def knownBrands : List String :=
  ["iphone", "apple", "samsung", "oneplus", "xiaomi", "redmi", "realme",
   "oppo", "vivo", "pixel", "google", "motorola", "nothing", "poco",
   "iqoo", "nokia", "huawei", "honor", "asus", "rog",
   "dell", "hp", "lenovo", "acer", "msi", "macbook", "thinkpad",
   "surface", "microsoft", "intel", "amd", "nvidia",
   "nike", "adidas", "puma", "reebok", "skechers", "levis", "zara",
   "hm", "uniqlo", "gucci", "prada", "louis", "vuitton",
   "sony", "lg", "bosch", "philips", "dyson", "jbl", "bose",
   "boat", "fire", "boltt", "fossil", "titan", "casio", "timex"]

/-- Accessory keywords: rejected for electronics queries. -/
def accessoryKeywords : List String :=
  ["case", "cover", "back cover", "tempered", "screen guard", "screen protector",
   "protector", "charger", "cable", "adapter", "earbuds", "earphones",
   "headphones", "power bank", "holder", "stand", "tripod", "watch strap",
   "skin", "sticker", "decal", "pouch", "sleeve", "cleaning kit", "stylus",
   "film", "mount", "grip", "ring holder", "pop socket", "armband",
   "car mount", "dock", "hub", "dongle", "otg", "memory card"]

/-- Apparel keywords: rejected for electronics queries. -/
def apparelKeywords : List String :=
  ["dress", "top", "shirt", "tshirt", "t-shirt", "kurta", "saree", "sari",
   "jeans", "jacket", "hoodie", "bra", "pant", "trouser", "skirt", "shoe",
   "sandal", "heels", "blouse", "lehenga", "dupatta", "palazzo", "shorts",
   "trackpant", "track pant", "jogger", "sweatshirt", "sweater", "cardigan",
   "blazer", "suit", "tie", "belt", "scarf", "shawl", "stole", "lingerie",
   "underwear", "boxers", "socks", "cap", "hat", "beanie", "watch band",
   "handbag", "purse", "wallet", "clutch", "tote", "backpack",
   "printed", "cotton", "polyester", "silk", "chiffon", "georgette"]

/-- Electronics keywords: mark a query as an electronics search. -/
def electronicsKeywords : List String :=
  ["phone", "mobile", "smartphone", "laptop", "tablet", "camera", "tv",
   "television", "monitor", "speaker", "headphone", "earphone", "earbud",
   "smartwatch", "watch", "console", "gaming", "processor", "gpu", "ssd",
   "hdd", "ram", "router", "printer", "scanner", "projector", "drone",
   "gb", "tb", "5g", "4g", "wifi", "bluetooth", "amoled", "oled", "lcd"]

/-- `normalizeText`: lowercase, replace non-alphanumerics by a space,
collapse whitespace, trim. -/
def normalizeText (text : String) : String :=
  String.mk (trimChars (collapseWs
    ((lowerChars text.data).map
      (fun c => if ('a' ≤ c ∧ c ≤ 'z') ∨ c.isDigit ∨ jsWs c then c else ' '))))

/-- `tokenize`: normalize, split on spaces, drop 1-character tokens and
stop words. -/
def tokenize (text : String) : List String :=
  ((splitSpace (normalizeText text).data).map String.mk).filter
    (fun token => decide (1 < token.length) && !(stopWords.contains token))

/-- `isColor`: membership in the known color table. -/
def isColor (token : String) : Bool :=
  (["red", "blue", "green", "black", "white", "gold", "silver", "grey",
    "gray", "pink", "purple", "orange", "yellow", "brown", "beige", "navy",
    "teal", "coral", "maroon", "cream", "ivory", "lavender", "midnight",
    "space", "starlight", "titanium", "graphite", "sierra", "alpine"] :
      List String).contains token

/-- The brand-alias table from `scoreRelevance` rule 3. -/
def brandAliases (brand : String) : List String :=
  if brand = "iphone" then ["iphone", "apple iphone"]
  else if brand = "apple" then ["apple", "iphone"]
  else if brand = "samsung" then ["samsung", "galaxy"]
  else if brand = "oneplus" then ["oneplus", "one plus"]
  else if brand = "redmi" then ["redmi", "xiaomi redmi"]
  else if brand = "pixel" then ["pixel", "google pixel"]
  else [brand]

/-- `SearchService.scoreRelevance`: relevance score of a product title
against a search query; `≤ 0` means reject.  Direct transcription of the
rule chain (early `return -1` becomes nested `if`). -/
def scoreRelevance (searchQuery title : String) : ℚ :=
  let queryNorm := normalizeText searchQuery
  let titleNorm := normalizeText title
  if queryNorm = "" ∨ titleNorm = "" then -1 else
  let queryTokens := tokenize queryNorm
  let titleTokens := tokenize titleNorm
  if queryTokens = [] then -1 else
  if titleTokens = [] then -1 else
  let queryTokenSet := jsSetList queryTokens
  let titleTokenSet := jsSetList titleTokens
  let brandTokens := queryTokens.filter (fun t => knownBrands.contains t)
  let numericTokens := queryTokens.filter (fun t => t.data.any Char.isDigit)
  let colorTokens := queryTokens.filter isColor
  let isElectronicsQuery := queryTokens.any
    (fun t => electronicsKeywords.contains t || knownBrands.contains t)
  -- Rule 1: ALL brand tokens must appear in the title
  if brandTokens ≠ [] ∧
      ¬(brandTokens.all (fun brand =>
          titleTokenSet.contains brand || jsIncludes titleNorm brand)) then -1 else
  -- Rule 2: ALL numeric tokens must appear in the title text
  if numericTokens ≠ [] ∧
      ¬(numericTokens.all (fun num => jsIncludes titleNorm num)) then -1 else
  -- Rule 3: brand + model contiguous phrase check
  if brandTokens ≠ [] ∧ numericTokens ≠ [] ∧
      ¬(brandTokens.any (fun brand =>
          (brandAliases brand).any (fun al =>
            numericTokens.any (fun num =>
              jsIncludes titleNorm (al ++ " " ++ num) ||
              jsIncludes titleNorm (al ++ num) ||
              jsIncludes titleNorm (brand ++ " " ++ num) ||
              jsIncludes titleNorm (brand ++ num))))) then -1 else
  -- Rule 4: reject accessories / apparel on electronics queries
  if isElectronicsQuery ∧
      accessoryKeywords.any (fun kw => jsIncludes titleNorm kw) then -1 else
  if isElectronicsQuery ∧
      apparelKeywords.any (fun kw => jsIncludes titleNorm kw) then -1 else
  -- Rule 5: minimum keyword overlap ratio
  let matchedCount := (queryTokenSet.filter
    (fun token => titleTokenSet.contains token || jsIncludes titleNorm token)).length
  let overlapRatio : ℚ := (matchedCount : ℚ) / (queryTokenSet.length : ℚ)
  let minOverlap : ℚ := if queryTokenSet.length ≤ 3 then 1/2 else 2/5
  if overlapRatio < minOverlap then -1 else
  if queryTokenSet.length ≤ 2 ∧ matchedCount < queryTokenSet.length then -1 else
  -- Scoring
  let score : ℚ := (matchedCount : ℚ)
  let score := score + (if jsIncludes titleNorm queryNorm then 5 else 0)
  let score := score +
    (if colorTokens ≠ [] then
      ((colorTokens.filter (fun c => jsIncludes titleNorm c)).length : ℚ) * (3/2)
    else 0)
  let score := score + overlapRatio * 3
  let score := score + (if brandTokens ≠ [] then 2 else 0)
  let score := score + (if numericTokens ≠ [] then 2 else 0)
  score

end SearchService

/-! ## Aggregated results (backend/src/scrapers/index.js) -/

/-- Per-platform slot of the aggregated result.  The wall-clock `durationMs`
field is real time and is not modelled; `searchedAt` likewise. -/
structure PlatformData where
  success : Bool := true
  checked : Bool := true
  count : ℕ := 0
  results : List Product := []
  error : Option String := none
  rejectedCount : Option ℕ := none
deriving Repr, DecidableEq

/-- The aggregated search result.  JS object keys iterate in insertion order
and the registry inserts each platform once, so `platforms` is an
association list in insertion order. -/
structure AggregatedResult where
  query : String := ""
  platforms : List (String × PlatformData) := []
  totalResults : ℕ := 0
  lowestPrice : Option (Product × String) := none
deriving Repr, DecidableEq

namespace ScraperRegistry

/-- The behaviour of one scraper's `search` call: either a result list or a
thrown error's message.  (The per-platform `try`/`catch` inside
`ScraperRegistry.searchAll` turns the latter into a failed slot, so the
promise itself never rejects.) -/
abbrev SearchOutcome := Except String (List Product)

/-- One settled entry of the `Promise.allSettled` join, as aggregated into
`aggregated.platforms[platform]`. -/
def aggregateOutcome (e : String × SearchOutcome) : String × PlatformData :=
  match e.2 with
  | .ok results =>
    (e.1, { success := true, checked := true, count := results.length,
            results := results, error := none })
  | .error msg =>
    (e.1, { success := false, checked := true, count := 0,
            results := [], error := some msg })

/-- The lowest-price tracking step
`if (price && (!lowestPrice || price < lowestPrice.price)) lowestPrice = {...product, platform}`,
shared verbatim by `ScraperRegistry.searchAll` and
`SearchService.applyRelevanceFilter`. -/
def trackLowestProduct (platform : String) (low : Option (Product × String))
    (product : Product) : Option (Product × String) :=
  match low with
  | none => if jsPriceTruthy product.price then some (product, platform) else none
  | some (lp, lpl) =>
    if jsPriceTruthy product.price ∧ priceVal product.price < priceVal lp.price
    then some (product, platform)
    else some (lp, lpl)

/-- `ScraperRegistry.searchAll`, as a function of the per-platform search
outcomes (the concurrent fan-out settles every promise; join order equals
the registry's platform order). -/
def searchAll (query : String) (outcomes : List (String × SearchOutcome)) :
    AggregatedResult :=
  let entries := outcomes.map aggregateOutcome
  { query := query
    platforms := entries
    totalResults := (entries.map (fun e => e.2.count)).sum
    lowestPrice := entries.foldl
      (fun low e => e.2.results.foldl (trackLowestProduct e.1) low) none }

end ScraperRegistry

namespace SearchService

/-- `SearchService.filterAndRankProducts`: score every product, reject
`score ≤ 0`, sort by score descending (JS stable sort), truncate to
`maxResults`. -/
def filterAndRankProducts (products : List Product) (searchQuery : String)
    (maxResults : ℕ) : List Product :=
  if products = [] then []
  else
    let scored := products.map (fun product =>
      (product, scoreRelevance searchQuery (jsTitleOf product)))
    let kept := scored.filter (fun item => !(decide (item.2 ≤ 0)))
    let sorted := kept.insertionSort (fun a b => b.2 ≤ a.2)
    (sorted.take maxResults).map Prod.fst

/-- The allowed-website list (as a set of lowercase names). -/
def allowedWebsites : List String :=
  ["amazon", "flipkart", "myntra", "croma", "reliance"]

/-- The per-platform body of `applyRelevanceFilter`: price filter,
deduplication, relevance ranking, truncation to 5. -/
def processPlatform (searchQuery : String) (maxResults : ℕ)
    (platformData : PlatformData) : PlatformData :=
  let rawResults := platformData.results
  let rawCount := rawResults.length
  let priced := rawResults.filter (fun product => BaseScraper.priceKeep product.price)
  let deduped := ProductMatcher.deduplicateByWebsite priced
  let filtered := filterAndRankProducts deduped searchQuery maxResults
  let finalResults := filtered.take 5
  { platformData with
      results := finalResults
      count := finalResults.length
      rejectedCount := some (rawCount - finalResults.length) }

/-- `SearchService.applyRelevanceFilter` (the in-place mutation as a
function): drop non-allowed platforms, process each remaining platform, and
recompute `totalResults` and `lowestPrice` from the retained sets.  The JS
loop interleaves the per-platform update with the two accumulators; the data
flow is identical. -/
def applyRelevanceFilter (agg : AggregatedResult) (searchQuery : String)
    (maxResults : ℕ) : AggregatedResult :=
  let processed :=
    (agg.platforms.filter (fun e =>
        allowedWebsites.contains (String.mk (lowerChars e.1.data)))).map
      (fun e => (e.1, processPlatform searchQuery maxResults e.2))
  { agg with
      platforms := processed
      totalResults := (processed.map (fun e => e.2.results.length)).sum
      lowestPrice := processed.foldl
        (fun low e => e.2.results.foldl (ScraperRegistry.trackLowestProduct e.1) low)
        none }

end SearchService

namespace BaseScraper

/-! ## Transport model: makeRequest / smartFetch -/

/-- Observable transport events: a light (axios) attempt with its 1-based
attempt number, an exponential-backoff delay in milliseconds, and the single
heavy (Puppeteer) attempt. -/
inductive FetchEvent where
  | lightAttempt (n : ℕ)
  | backoff (ms : ℕ)
  | heavyAttempt
deriving Repr, DecidableEq

/-- The error message thrown by `makeRequest` after exhausting its
retries. -/
def requestFailMsg (platformName : String) (maxRetries : ℕ)
    (lastErr : String) : String :=
  "Failed to fetch from " ++ platformName ++ " after " ++ toString maxRetries
    ++ " attempts: " ++ lastErr

/-- The error message thrown by `smartFetch` when both transports fail. -/
def allFailMsg (platformName axiosMsg puppeteerMsg : String) : String :=
  "All fetch methods failed for " ++ platformName ++ ": axios(" ++ axiosMsg
    ++ "), puppeteer(" ++ puppeteerMsg ++ ")"

/-- The retry loop of `makeRequest`.  `light attempt` is the outcome of the
axios attempt with that 1-based number; `k` counts the remaining attempts
(the loop runs for `attempt = 1..maxRetries`, and waits
`1000 * 2^(attempt-1)` ms whenever `attempt < maxRetries`).  The result pairs
the returned value (or thrown message) with the event trace. -/
def makeRequestGo (platformName : String) (light : ℕ → Except String String)
    (maxRetries : ℕ) : ℕ → ℕ → String →
    Except String String × List FetchEvent
  | 0, _, lastErr => (.error (requestFailMsg platformName maxRetries lastErr), [])
  | k + 1, attempt, _ =>
    match light attempt with
    | .ok d => (.ok d, [.lightAttempt attempt])
    | .error e =>
      let waits : List FetchEvent :=
        if attempt < maxRetries then [.backoff (1000 * 2 ^ (attempt - 1))] else []
      let next := makeRequestGo platformName light maxRetries k (attempt + 1) e
      (next.1, .lightAttempt attempt :: (waits ++ next.2))

/-- `BaseScraper.makeRequest` (with `maxRetries ≥ 1`; for `maxRetries = 0`
the JS loop body never runs and the code would throw a `TypeError` reading
`lastError.message`, a case no caller exercises since the option defaults
to 3). -/
def makeRequest (platformName : String) (light : ℕ → Except String String)
    (maxRetries : ℕ) : Except String String × List FetchEvent :=
  makeRequestGo platformName light maxRetries maxRetries 1 ""

/-- `BaseScraper.smartFetch`: axios with retries first, then one Puppeteer
attempt; if both fail the thrown message carries both underlying messages. -/
def smartFetch (platformName : String) (light : ℕ → Except String String)
    (heavy : Except String String) (maxRetries : ℕ) :
    Except String String × List FetchEvent :=
  match makeRequest platformName light maxRetries with
  | (.ok d, tr) => (.ok d, tr)
  | (.error axiosMsg, tr) =>
    match heavy with
    | .ok d => (.ok d, tr ++ [.heavyAttempt])
    | .error puppeteerMsg =>
      (.error (allFailMsg platformName axiosMsg puppeteerMsg),
       tr ++ [.heavyAttempt])

end BaseScraper

/-! ## Concrete fixtures used by counterexamples and witnesses -/

/-- A concrete product: first member of a duplicate chain (shares 7 of 10
title words with `chainMid`). -/
def chainA : Product :=
  { title := "zzz aab aac aad xxa xxb xxc uua uub uuc", price := some 1000 }

/-- A concrete product: not a duplicate of `chainA` (4 of 10 shared words),
but a duplicate of `chainMid`. -/
def chainB : Product :=
  { title := "zzz bba bbc bbd xxa xxb xxc vva vvb vvc", price := some 800 }

/-- A concrete product matching both `chainA` (7/10 words) and `chainB`
(7/10 words), cheaper than both. -/
def chainMid : Product :=
  { title := "zzz aab aac aad bba bbc bbd xxa xxb xxc", price := some 500 }

/-- A concrete relevant product for pipeline witnesses. -/
def prodGood : Product :=
  { title := "Apple iPhone 15 (128GB) Black",
    product_name := "Apple iPhone 15 (128GB) Black",
    price := some 50000 }

/-- A concrete aggregated-search result for pipeline witnesses. -/
def agg0 : AggregatedResult :=
  ScraperRegistry.searchAll "iPhone 15"
    [("amazon", .ok [prodGood]), ("flipkart", .error "boom"), ("myntra", .ok [])]

/-! ## Helper lemmas about the pipeline -/

theorem mem_of_filterAndRank {l : List Product} {q : String} {k : ℕ} {p : Product}
    (h : p ∈ SearchService.filterAndRankProducts l q k) : p ∈ l := by
  unfold SearchService.filterAndRankProducts at h
  by_cases hl : l = []
  · simp [hl] at h
  · rw [if_neg hl] at h
    obtain ⟨a, ha, rfl⟩ := List.mem_map.mp h
    have h1 := List.mem_of_mem_take ha
    rw [List.mem_insertionSort] at h1
    have h2 := (List.mem_filter.mp h1).1
    obtain ⟨x, hx, hxa⟩ := List.mem_map.mp h2
    rw [← hxa]
    exact hx

theorem mem_of_dedupInsert {acc : List Product} {p x : Product}
    (h : x ∈ ProductMatcher.dedupInsert acc p) : x ∈ acc ∨ x = p := by
  unfold ProductMatcher.dedupInsert at h
  cases hf : acc.findIdx? (fun s => ProductMatcher.doProductsMatch p s) with
  | none =>
    rw [hf] at h
    simpa using h
  | some i =>
    rw [hf] at h
    simp only [] at h
    split at h
    · exact List.mem_or_eq_of_mem_set h
    · exact Or.inl h

theorem mem_of_dedup_foldl :
    ∀ (l acc : List Product) (x : Product),
      x ∈ l.foldl ProductMatcher.dedupInsert acc → x ∈ acc ∨ x ∈ l := by
  intro l
  induction l with
  | nil => intro acc x h; exact Or.inl h
  | cons p rest ih =>
    intro acc x h
    rcases ih (ProductMatcher.dedupInsert acc p) x h with h1 | h1
    · rcases mem_of_dedupInsert h1 with h2 | h2
      · exact Or.inl h2
      · exact Or.inr (by simp [h2])
    · exact Or.inr (List.mem_cons_of_mem _ h1)

theorem mem_of_deduplicate {l : List Product} {x : Product}
    (h : x ∈ ProductMatcher.deduplicateByWebsite l) : x ∈ l := by
  unfold ProductMatcher.deduplicateByWebsite at h
  split at h
  · exact h
  · rcases mem_of_dedup_foldl l [] x h with h1 | h1
    · simp at h1
    · exact h1

theorem mem_of_processPlatform {q : String} {k : ℕ} {pd : PlatformData} {p : Product}
    (h : p ∈ (SearchService.processPlatform q k pd).results) :
    p ∈ pd.results ∧ BaseScraper.priceKeep p.price = true := by
  unfold SearchService.processPlatform at h
  simp only [] at h
  have h1 := List.mem_of_mem_take h
  have h2 := mem_of_filterAndRank h1
  have h3 := mem_of_deduplicate h2
  have h4 := List.mem_filter.mp h3
  exact ⟨h4.1, h4.2⟩

theorem mem_of_applyRelevanceFilter {agg : AggregatedResult} {q : String} {k : ℕ}
    {pl : String} {pd : PlatformData}
    (h : (pl, pd) ∈ (SearchService.applyRelevanceFilter agg q k).platforms) :
    ∃ pd0, (pl, pd0) ∈ agg.platforms ∧ pd = SearchService.processPlatform q k pd0 := by
  unfold SearchService.applyRelevanceFilter at h
  simp only [] at h
  obtain ⟨⟨pl0, pd0⟩, hmem, heq⟩ := List.mem_map.mp h
  injection heq with h1 h2
  subst h1
  exact ⟨pd0, (List.mem_filter.mp hmem).1, h2.symm⟩

theorem priceKeep_spec {p : Option ℚ} (h : BaseScraper.priceKeep p = true) :
    ∃ v, p = some v ∧ 100 ≤ v ∧ 0 < v := by
  cases p with
  | none => simp [BaseScraper.priceKeep, jsPriceTruthy] at h
  | some v =>
    simp [BaseScraper.priceKeep, jsPriceTruthy, priceVal] at h
    exact ⟨v, rfl, h.2, by linarith [h.2]⟩

theorem priceKeep_truthy {p : Option ℚ} (h : BaseScraper.priceKeep p = true) :
    jsPriceTruthy p = true := by
  unfold BaseScraper.priceKeep at h
  exact (Bool.and_eq_true_iff.mp h).1

/-! ## Claims -/

/-- C1: every product contained in any platform entry of the aggregated
result after relevance filtering has a numeric price that is at least 100
and strictly positive; no missing/null/zero/below-threshold price survives. -/
theorem claim_C1 (agg : AggregatedResult) (searchQuery : String) (maxResults : ℕ)
    (platform : String) (pd : PlatformData)
    (hmem : (platform, pd) ∈ (SearchService.applyRelevanceFilter agg searchQuery maxResults).platforms)
    (p : Product) (hp : p ∈ pd.results) :
    ∃ v, p.price = some v ∧ 100 ≤ v ∧ 0 < v := by
  obtain ⟨pd0, _, rfl⟩ := mem_of_applyRelevanceFilter hmem
  exact priceKeep_spec (mem_of_processPlatform hp).2

/-- Witness for C1 at a concrete aggregated result. -/
theorem claim_C1_witness : ∃ v, prodGood.price = some v ∧ 100 ≤ v ∧ 0 < v :=
  claim_C1 agg0 "iPhone 15" 10 "amazon"
    (SearchService.processPlatform "iPhone 15" 10
      { success := true, checked := true, count := 1, results := [prodGood], error := none })
    (by decide) prodGood (by decide)

/-- C2: the price normalizer maps `"₹1"`, `"1"`, `""`, `"Rs. 1"` to `null`,
`"₹79,900"` to `79900`, and `"1,499"` to `1499` (not `1.499`). -/
theorem claim_C2 :
    BaseScraper.extractPrice "₹1" = none ∧
    BaseScraper.extractPrice "1" = none ∧
    BaseScraper.extractPrice "" = none ∧
    BaseScraper.extractPrice "Rs. 1" = none ∧
    BaseScraper.extractPrice "₹79,900" = some 79900 ∧
    BaseScraper.extractPrice "1,499" = some 1499 := by
  refine ⟨?_, ?_, ?_, ?_, ?_, ?_⟩ <;> decide

/-- C3: for the query `"iPhone 15"`, the relevance scorer rejects
`"iPhone 15 Pro Max Silicone Case"` (score `≤ 0`) and accepts
`"Apple iPhone 15 (128GB) Black"` (score `> 0`). -/
theorem claim_C3 :
    SearchService.scoreRelevance "iPhone 15" "iPhone 15 Pro Max Silicone Case" ≤ 0 ∧
    0 < SearchService.scoreRelevance "iPhone 15" "Apple iPhone 15 (128GB) Black" := by
  constructor <;> decide

/-- C6: every platform entry of the filtered aggregated result retains at
most 5 products. -/
theorem claim_C6 (agg : AggregatedResult) (searchQuery : String) (maxResults : ℕ)
    (platform : String) (pd : PlatformData)
    (hmem : (platform, pd) ∈ (SearchService.applyRelevanceFilter agg searchQuery maxResults).platforms) :
    pd.results.length ≤ 5 := by
  obtain ⟨pd0, _, rfl⟩ := mem_of_applyRelevanceFilter hmem
  unfold SearchService.processPlatform
  simp only []
  calc (List.take 5 _).length ≤ 5 := by
        rw [List.length_take]
        exact min_le_left _ _

/-- Witness for C6 at a concrete aggregated result. -/
theorem claim_C6_witness :
    (SearchService.processPlatform "iPhone 15" 10
      { success := true, checked := true, count := 1, results := [prodGood],
        error := none }).results.length ≤ 5 :=
  claim_C6 agg0 "iPhone 15" 10 "amazon" _ (by decide)

/-- C7 counterexample: deduplication is NOT idempotent.  In
`[chainA, chainB, chainMid]` the cheaper `chainMid` replaces `chainA`
in-place, creating a new duplicate pair with the already-kept `chainB`,
which only a second pass merges. -/
theorem claim_C7_counterexample :
    ProductMatcher.deduplicateByWebsite
        (ProductMatcher.deduplicateByWebsite [chainA, chainB, chainMid])
      ≠ ProductMatcher.deduplicateByWebsite [chainA, chainB, chainMid] := by
  decide

/-- C7 (amended): on a list in which no later product matches any earlier
one under `doProductsMatch`, `deduplicateByWebsite` is the identity (hence a
second application of the matcher changes nothing); full idempotence fails
because an in-place replacement by a cheaper duplicate can create a new
matching pair (see the counterexample). -/
theorem claim_C7 (l : List Product)
    (h : l.Pairwise (fun a b => ProductMatcher.doProductsMatch b a = false)) :
    ProductMatcher.deduplicateByWebsite l = l := by
  have key : ∀ (rest acc : List Product),
      (∀ p ∈ rest, ∀ q ∈ acc, ProductMatcher.doProductsMatch p q = false) →
      rest.Pairwise (fun a b => ProductMatcher.doProductsMatch b a = false) →
      rest.foldl ProductMatcher.dedupInsert acc = acc ++ rest := by
    intro rest
    induction rest with
    | nil => intro acc _ _; simp
    | cons p tl ih =>
      intro acc hcross hpw
      have hfind : acc.findIdx? (fun s => ProductMatcher.doProductsMatch p s) = none := by
        rw [List.findIdx?_eq_none_iff]
        intro q hq
        simp [hcross p (by simp) q hq]
      have hstep : ProductMatcher.dedupInsert acc p = acc ++ [p] := by
        unfold ProductMatcher.dedupInsert
        rw [hfind]
      rw [List.foldl_cons, hstep]
      rw [ih (acc ++ [p]) ?_ (List.Pairwise.of_cons hpw)]
      · simp
      · intro x hx q hq
        rcases List.mem_append.mp hq with hq1 | hq1
        · exact hcross x (by simp [hx]) q hq1
        · have hq2 : q = p := by simpa using hq1
          subst hq2
          exact (List.pairwise_cons.mp hpw).1 x hx
  unfold ProductMatcher.deduplicateByWebsite
  split
  · rfl
  · rw [key l [] (by intro p _ q hq; simp at hq) h]
    simp

/-- Witness for the amended C7 on a concrete duplicate-free list. -/
theorem claim_C7_witness :
    ProductMatcher.deduplicateByWebsite [chainA, chainB] = [chainA, chainB] :=
  claim_C7 [chainA, chainB] (by decide)

/-- C10: every product emitted by `normalizeResults` has currency `"INR"`,
and its `inStock` field is `false` exactly when the raw result's
`availability` equals `'out_of_stock'`; any other value (including a missing
one) yields `inStock = true`, and the emitted `availability` boolean agrees
with `inStock`. -/
theorem claim_C10 (platformName : String) (results : List BaseScraper.RawResult)
    (p : Product) (hp : p ∈ BaseScraper.normalizeResults platformName results) :
    p.currency = "INR" ∧
    ∃ r ∈ results, p = BaseScraper.normalizeOne platformName r ∧
      (p.inStock = false ↔ r.availability = some "out_of_stock") ∧
      (r.availability ≠ some "out_of_stock" → p.inStock = true) ∧
      p.availability = p.inStock := by
  unfold BaseScraper.normalizeResults at hp
  obtain ⟨r, hr, rfl⟩ := List.mem_map.mp hp
  refine ⟨rfl, r, (List.mem_filter.mp hr).1, rfl, ?_, ?_, rfl⟩
  · simp [BaseScraper.normalizeOne]
  · intro hne
    simp [BaseScraper.normalizeOne, hne]

theorem aggregateOutcome_fst (e : String × ScraperRegistry.SearchOutcome) :
    (ScraperRegistry.aggregateOutcome e).1 = e.1 := by
  obtain ⟨pl, oc⟩ := e
  cases oc <;> rfl

/-- The platform slot produced for a source whose search threw `msg`. -/
def failSlot (msg : String) : PlatformData :=
  { success := false, checked := true, count := 0, results := [], error := some msg }

/-- C4: if exactly one source's search throws, the aggregated result keeps
one entry per source in order; the failing entry is marked
`success = false` with the (non-empty) error message and an empty product
list; every other entry, and the recomputed totals, are identical to the
aggregation without the failing source; no exception escapes (the
aggregation is a total function). -/
theorem claim_C4 (q fp msg : String)
    (pre post : List (String × ScraperRegistry.SearchOutcome))
    (_hok : ∀ e ∈ pre ++ post, ∃ rs, e.2 = Except.ok rs) (hmsg : msg ≠ "") :
    (ScraperRegistry.searchAll q (pre ++ (fp, Except.error msg) :: post)).platforms.map Prod.fst
        = (pre ++ (fp, Except.error msg) :: post).map Prod.fst
    ∧ ((fp, failSlot msg)
          ∈ (ScraperRegistry.searchAll q (pre ++ (fp, Except.error msg) :: post)).platforms
        ∧ msg ≠ "")
    ∧ (∃ P Q,
        (ScraperRegistry.searchAll q (pre ++ (fp, Except.error msg) :: post)).platforms
            = P ++ (fp, failSlot msg) :: Q
        ∧ (ScraperRegistry.searchAll q (pre ++ post)).platforms = P ++ Q)
    ∧ (ScraperRegistry.searchAll q (pre ++ (fp, Except.error msg) :: post)).totalResults
        = (ScraperRegistry.searchAll q (pre ++ post)).totalResults
    ∧ (ScraperRegistry.searchAll q (pre ++ (fp, Except.error msg) :: post)).lowestPrice
        = (ScraperRegistry.searchAll q (pre ++ post)).lowestPrice := by
  refine ⟨?_, ⟨?_, hmsg⟩, ⟨pre.map ScraperRegistry.aggregateOutcome,
    post.map ScraperRegistry.aggregateOutcome, ?_, ?_⟩, ?_, ?_⟩
  · show ((pre ++ (fp, Except.error msg) :: post).map ScraperRegistry.aggregateOutcome).map
        Prod.fst = _
    rw [List.map_map]
    exact List.map_congr_left (fun e _ => aggregateOutcome_fst e)
  · show _ ∈ (pre ++ (fp, Except.error msg) :: post).map ScraperRegistry.aggregateOutcome
    rw [List.map_append, List.map_cons]
    exact List.mem_append_right _ (List.mem_cons_self _ _)
  · show (pre ++ (fp, Except.error msg) :: post).map ScraperRegistry.aggregateOutcome = _
    rw [List.map_append, List.map_cons]
    rfl
  · show (pre ++ post).map ScraperRegistry.aggregateOutcome = _
    rw [List.map_append]
  · show (((pre ++ (fp, Except.error msg) :: post).map
          ScraperRegistry.aggregateOutcome).map (fun e => e.2.count)).sum
      = (((pre ++ post).map ScraperRegistry.aggregateOutcome).map (fun e => e.2.count)).sum
    simp only [List.map_append, List.map_cons, List.sum_append, List.sum_cons]
    simp [ScraperRegistry.aggregateOutcome]
  · show ((pre ++ (fp, Except.error msg) :: post).map ScraperRegistry.aggregateOutcome).foldl
        (fun low e => e.2.results.foldl (ScraperRegistry.trackLowestProduct e.1) low) none
      = ((pre ++ post).map ScraperRegistry.aggregateOutcome).foldl
        (fun low e => e.2.results.foldl (ScraperRegistry.trackLowestProduct e.1) low) none
    simp only [List.map_append, List.map_cons, List.foldl_append, List.foldl_cons]
    rfl

/-- Witness for C4: a three-source run where only flipkart fails. -/
theorem claim_C4_witness :
    (("flipkart", failSlot "boom")
      ∈ (ScraperRegistry.searchAll "iPhone 15"
          ([("amazon", Except.ok [prodGood])] ++ ("flipkart", Except.error "boom")
            :: [("myntra", Except.ok [])])).platforms)
    ∧ "boom" ≠ "" :=
  (claim_C4 "iPhone 15" "flipkart" "boom" [("amazon", Except.ok [prodGood])]
    [("myntra", Except.ok [])]
    (by
      intro e he
      simp only [List.cons_append, List.nil_append, List.mem_cons,
        List.not_mem_nil, or_false] at he
      rcases he with rfl | rfl
      · exact ⟨[prodGood], rfl⟩
      · exact ⟨[], rfl⟩)
    (by decide)).2.1

/-! ## Lowest-price tracking lemmas (for C5) -/

theorem trackLowest_step (pl : String) (low : Option (Product × String)) (p : Product)
    (hp : jsPriceTruthy p.price = true) :
    ∃ lp pll, ScraperRegistry.trackLowestProduct pl low p = some (lp, pll)
      ∧ priceVal lp.price ≤ priceVal p.price
      ∧ (∀ l0 pl0, low = some (l0, pl0) → priceVal lp.price ≤ priceVal l0.price)
      ∧ ((lp = p ∧ pll = pl) ∨ low = some (lp, pll)) := by
  cases low with
  | none =>
    refine ⟨p, pl, ?_, le_refl _, ?_, Or.inl ⟨rfl, rfl⟩⟩
    · simp [ScraperRegistry.trackLowestProduct, hp]
    · intro l0 pl0 h
      exact absurd h (by simp)
  | some lowv =>
    obtain ⟨l0, pl0⟩ := lowv
    by_cases hlt : priceVal p.price < priceVal l0.price
    · refine ⟨p, pl, ?_, le_refl _, ?_, Or.inl ⟨rfl, rfl⟩⟩
      · simp only [ScraperRegistry.trackLowestProduct]
        rw [if_pos ⟨hp, hlt⟩]
      · intro l1 pl1 h
        injection h with h1
        injection h1 with h2 h3
        subst h2
        exact le_of_lt hlt
    · refine ⟨l0, pl0, ?_, le_of_not_lt hlt, ?_, Or.inr rfl⟩
      · simp only [ScraperRegistry.trackLowestProduct]
        rw [if_neg (fun hc => hlt hc.2)]
      · intro l1 pl1 h
        injection h with h1
        injection h1 with h2 h3
        subst h2
        exact le_refl _

theorem trackLowest_fold_spec :
    ∀ (pairs : List (String × Product)) (init : Option (Product × String)),
      (∀ pp ∈ pairs, jsPriceTruthy pp.2.price = true) →
      (pairs.foldl (fun low pp => ScraperRegistry.trackLowestProduct pp.1 low pp.2) init = none
        → (init = none ∧ pairs = [])) ∧
      (∀ lp pl,
        pairs.foldl (fun low pp => ScraperRegistry.trackLowestProduct pp.1 low pp.2) init
            = some (lp, pl) →
        (init = some (lp, pl) ∨ (pl, lp) ∈ pairs)
        ∧ (∀ pp ∈ pairs, priceVal lp.price ≤ priceVal pp.2.price)
        ∧ (∀ ip ipl, init = some (ip, ipl) → priceVal lp.price ≤ priceVal ip.price)) := by
  intro pairs
  induction pairs with
  | nil =>
    intro init _
    refine ⟨fun h => ⟨h, rfl⟩, fun lp pl h => ⟨Or.inl h, by simp, ?_⟩⟩
    intro ip ipl hip
    simp only [List.foldl_nil] at h
    rw [h] at hip
    injection hip with h1
    injection h1 with h2 h3
    subst h2
    exact le_refl _
  | cons pp rest ih =>
    obtain ⟨ppl, ppp⟩ := pp
    intro init htr
    have hppt : jsPriceTruthy ppp.price = true := htr (ppl, ppp) (List.mem_cons_self _ _)
    obtain ⟨m, mpl, hmid, hmp, hminit, hmor⟩ := trackLowest_step ppl init ppp hppt
    have ihall := ih (ScraperRegistry.trackLowestProduct ppl init ppp)
      (fun x hx => htr x (List.mem_cons_of_mem _ hx))
    constructor
    · intro h
      rw [List.foldl_cons] at h
      have := (ihall.1 h).1
      rw [hmid] at this
      exact absurd this (by simp)
    · intro lp pl h
      rw [List.foldl_cons] at h
      obtain ⟨hsrc, hbnd, hinit⟩ := ihall.2 lp pl h
      have hlpm : priceVal lp.price ≤ priceVal m.price := by
        rcases hsrc with hs | hs
        · rw [hmid] at hs
          injection hs with h1
          injection h1 with h2 h3
          subst h2
          exact le_refl _
        · exact hinit m mpl hmid
      refine ⟨?_, ?_, ?_⟩
      · rcases hsrc with hs | hs
        · rw [hmid] at hs
          injection hs with h1
          injection h1 with h2 h3
          subst h2
          subst h3
          rcases hmor with ⟨hl, hr⟩ | hmor
          · subst hl
            subst hr
            exact Or.inr (List.mem_cons_self _ _)
          · exact Or.inl hmor
        · exact Or.inr (List.mem_cons_of_mem _ hs)
      · intro qq hq
        rcases List.mem_cons.mp hq with rfl | hq2
        · exact le_trans hlpm hmp
        · exact hbnd qq hq2
      · intro ip ipl hip
        exact le_trans hlpm (hminit ip ipl hip)

theorem lowest_foldl_flatten (entries : List (String × PlatformData))
    (init : Option (Product × String)) :
    entries.foldl
        (fun low e => e.2.results.foldl (ScraperRegistry.trackLowestProduct e.1) low) init
      = (entries.flatMap (fun e => e.2.results.map (fun p => (e.1, p)))).foldl
          (fun low pp => ScraperRegistry.trackLowestProduct pp.1 low pp.2) init := by
  induction entries generalizing init with
  | nil => rfl
  | cons e rest ih =>
    rw [List.foldl_cons, List.flatMap_cons, List.foldl_append, List.foldl_map]
    exact ih _

theorem mem_flat_results_iff (entries : List (String × PlatformData)) (p : Product) :
    p ∈ entries.flatMap (fun e => e.2.results)
      ↔ ∃ pl, (pl, p) ∈ entries.flatMap (fun e => e.2.results.map (fun x => (e.1, x))) := by
  constructor
  · intro h
    obtain ⟨e, he, hp⟩ := List.mem_flatMap.mp h
    exact ⟨e.1, List.mem_flatMap.mpr ⟨e, he, List.mem_map.mpr ⟨p, hp, rfl⟩⟩⟩
  · rintro ⟨pl, h⟩
    obtain ⟨e, he, hp⟩ := List.mem_flatMap.mp h
    obtain ⟨x, hx, hxe⟩ := List.mem_map.mp hp
    injection hxe with h1 h2
    subst h2
    exact List.mem_flatMap.mpr ⟨e, he, hx⟩

/-- C5: after relevance filtering, `lowestPrice` is absent exactly when no
product is retained; when present, its product is among the retained
products and its price is the minimum of all retained prices. -/
theorem claim_C5 (agg : AggregatedResult) (searchQuery : String) (maxResults : ℕ) :
    ((SearchService.applyRelevanceFilter agg searchQuery maxResults).lowestPrice = none
      ↔ (SearchService.applyRelevanceFilter agg searchQuery maxResults).platforms.flatMap
          (fun e => e.2.results) = [])
    ∧ (∀ lp pl,
        (SearchService.applyRelevanceFilter agg searchQuery maxResults).lowestPrice
            = some (lp, pl) →
        lp ∈ (SearchService.applyRelevanceFilter agg searchQuery maxResults).platforms.flatMap
            (fun e => e.2.results)
        ∧ ∃ v, lp.price = some v ∧
            ∀ p ∈ (SearchService.applyRelevanceFilter agg searchQuery maxResults).platforms.flatMap
                (fun e => e.2.results),
              ∀ w, p.price = some w → v ≤ w) := by
  have hkeep : ∀ p ∈ (SearchService.applyRelevanceFilter agg searchQuery maxResults).platforms.flatMap
      (fun e => e.2.results), BaseScraper.priceKeep p.price = true := by
    intro p hp
    obtain ⟨e, he, hpe⟩ := List.mem_flatMap.mp hp
    obtain ⟨pl0, pd0⟩ := e
    obtain ⟨pd1, _, rfl⟩ := mem_of_applyRelevanceFilter he
    exact (mem_of_processPlatform hpe).2
  have hfold : (SearchService.applyRelevanceFilter agg searchQuery maxResults).lowestPrice
      = ((SearchService.applyRelevanceFilter agg searchQuery maxResults).platforms.flatMap
          (fun e => e.2.results.map (fun p => (e.1, p)))).foldl
          (fun low pp => ScraperRegistry.trackLowestProduct pp.1 low pp.2) none := by
    exact lowest_foldl_flatten _ none
  have htr : ∀ pp ∈ (SearchService.applyRelevanceFilter agg searchQuery maxResults).platforms.flatMap
      (fun e => e.2.results.map (fun p => (e.1, p))), jsPriceTruthy pp.2.price = true := by
    intro pp hpp
    obtain ⟨e, he, hpe⟩ := List.mem_flatMap.mp hpp
    obtain ⟨x, hx, hxe⟩ := List.mem_map.mp hpe
    subst hxe
    exact priceKeep_truthy (hkeep x (List.mem_flatMap.mpr ⟨e, he, hx⟩))
  have hspec := trackLowest_fold_spec _ none htr
  constructor
  · constructor
    · intro h
      rw [hfold] at h
      have hnil := (hspec.1 h).2
      rw [List.eq_nil_iff_forall_not_mem]
      intro p hp
      obtain ⟨pl, hpl⟩ := (mem_flat_results_iff _ p).mp hp
      rw [hnil] at hpl
      exact absurd hpl (List.not_mem_nil _)
    · intro h
      rw [hfold]
      have hnil : (SearchService.applyRelevanceFilter agg searchQuery maxResults).platforms.flatMap
          (fun e => e.2.results.map (fun p => (e.1, p))) = [] := by
        rw [List.eq_nil_iff_forall_not_mem]
        intro pp hpp
        obtain ⟨e, he, hpe⟩ := List.mem_flatMap.mp hpp
        obtain ⟨x, hx, hxe⟩ := List.mem_map.mp hpe
        have : x ∈ (SearchService.applyRelevanceFilter agg searchQuery maxResults).platforms.flatMap
            (fun e => e.2.results) := List.mem_flatMap.mpr ⟨e, he, hx⟩
        rw [h] at this
        exact absurd this (List.not_mem_nil _)
      rw [hnil]
      rfl
  · intro lp pl h
    rw [hfold] at h
    obtain ⟨hsrc, hbnd, _⟩ := hspec.2 lp pl h
    have hlpm : lp ∈ (SearchService.applyRelevanceFilter agg searchQuery maxResults).platforms.flatMap
        (fun e => e.2.results) := by
      rcases hsrc with hs | hs
      · exact absurd hs (by simp)
      · exact (mem_flat_results_iff _ lp).mpr ⟨pl, hs⟩
    obtain ⟨v, hv, _, _⟩ := priceKeep_spec (hkeep lp hlpm)
    refine ⟨hlpm, v, hv, ?_⟩
    intro p hp w hw
    obtain ⟨pl2, hpl2⟩ := (mem_flat_results_iff _ p).mp hp
    have := hbnd (pl2, p) hpl2
    rw [hv, hw] at this
    simpa [priceVal] using this

/-- Witness for C5 at a concrete aggregated result. -/
theorem claim_C5_witness :
    prodGood ∈ (SearchService.applyRelevanceFilter agg0 "iPhone 15" 10).platforms.flatMap
      (fun e => e.2.results) :=
  ((claim_C5 agg0 "iPhone 15" 10).2 prodGood "amazon" (by decide)).1

/-! ## Sorted-candidate lemmas (for C8) -/

theorem matchRupeeAt_single (c : Char) : BaseScraper.matchRupeeAt [c] = none := by
  unfold BaseScraper.matchRupeeAt
  split
  · rename_i rest heq
    injection heq with h1 h2
    subst h2
    rfl
  · rfl

theorem candidatePrices_short {l : List Char} (hl : l.length < 2) :
    BaseScraper.candidatePrices l = [] := by
  match l, hl with
  | [], _ => rfl
  | [c], _ =>
    have h1 : BaseScraper.scanMatches BaseScraper.matchRupeeAt 1 [c] = [] := by
      unfold BaseScraper.scanMatches
      rw [matchRupeeAt_single]
      rfl
    have h2 : BaseScraper.scanMatches BaseScraper.matchRsAt 1 [c] = [] := by
      unfold BaseScraper.scanMatches
      rfl
    unfold BaseScraper.candidatePrices BaseScraper.symbolMatchValues
      BaseScraper.matchValues
    rw [show ([c] : List Char).length = 1 from rfl, h1, h2]
    rfl

theorem candidatePrices_length {l : List Char}
    (h : BaseScraper.candidatePrices l ≠ []) : 2 ≤ l.length := by
  by_contra hlt
  exact h (candidatePrices_short (by omega))

/-- C8: whenever the trimmed input admits at least one symbol-anchored price
match of value `≥ 100`, `extractPrice` returns the lowest such value; and
the returned value is itself `≥ 100`, so sub-threshold symbol matches are
never returned. -/
theorem claim_C8 (s : String)
    (hne : BaseScraper.candidatePrices (trimChars s.data) ≠ []) :
    ∃ v, BaseScraper.extractPrice s = some v
      ∧ v ∈ BaseScraper.symbolMatchValues (trimChars s.data)
      ∧ 100 ≤ v
      ∧ ∀ w ∈ BaseScraper.symbolMatchValues (trimChars s.data), 100 ≤ w → v ≤ w := by
  have hlen : 2 ≤ (trimChars s.data).length := candidatePrices_length hne
  unfold BaseScraper.extractPrice BaseScraper.extractPriceL
  rw [if_neg (by omega)]
  have hperm := List.perm_insertionSort (fun a b : ℚ => a ≤ b)
    (BaseScraper.candidatePrices (trimChars s.data))
  have hsorted := List.sorted_insertionSort (fun a b : ℚ => a ≤ b)
    (BaseScraper.candidatePrices (trimChars s.data))
  cases hs : (BaseScraper.candidatePrices (trimChars s.data)).insertionSort
      (fun a b : ℚ => a ≤ b) with
  | nil =>
    rw [hs] at hperm
    exact absurd (hperm.nil_eq.symm) hne
  | cons c rest =>
    have hcmem : c ∈ BaseScraper.candidatePrices (trimChars s.data) :=
      hperm.mem_iff.mp (by rw [hs]; exact List.mem_cons_self _ _)
    have hcfilter := List.mem_filter.mp hcmem
    refine ⟨c, rfl, hcfilter.1, by simpa using hcfilter.2, ?_⟩
    intro w hw hw100
    have hwmem : w ∈ BaseScraper.candidatePrices (trimChars s.data) :=
      List.mem_filter.mpr ⟨hw, by simpa using hw100⟩
    have hwsorted : w ∈ c :: rest := by
      rw [← hs]
      exact hperm.mem_iff.mpr hwmem
    rcases List.mem_cons.mp hwsorted with rfl | hwr
    · exact le_refl _
    · rw [hs] at hsorted
      exact List.rel_of_sorted_cons hsorted w hwr

/-- Witness for C8 on a concrete price string with two symbol matches. -/
theorem claim_C8_witness :
    ∃ v, BaseScraper.extractPrice "₹1,299.50 ₹2,000" = some v
      ∧ v ∈ BaseScraper.symbolMatchValues (trimChars "₹1,299.50 ₹2,000".data)
      ∧ 100 ≤ v
      ∧ ∀ w ∈ BaseScraper.symbolMatchValues (trimChars "₹1,299.50 ₹2,000".data),
          100 ≤ w → v ≤ w :=
  claim_C8 "₹1,299.50 ₹2,000" (by decide)

/-! ## Substring lemmas (for C9) -/

theorem startsWithChars_nil (l : List Char) : startsWithChars l [] = true := by
  cases l <;> rfl

theorem startsWithChars_append (n y : List Char) :
    startsWithChars (n ++ y) n = true := by
  induction n with
  | nil => exact startsWithChars_nil y
  | cons c cs ih => simp [startsWithChars, ih]

theorem hasSubChars_append_mid (x n y : List Char) :
    hasSubChars (x ++ (n ++ y)) n = true := by
  induction x with
  | nil =>
    unfold hasSubChars
    simp [startsWithChars_append]
  | cons c cs ih =>
    unfold hasSubChars
    simp only [List.cons_append]
    rw [Bool.or_eq_true]
    exact Or.inr ih

theorem jsIncludes_of_split (s pre mid suf : String) (h : s = pre ++ mid ++ suf) :
    jsIncludes s mid = true := by
  subst h
  unfold jsIncludes
  rw [String.data_append, String.data_append, List.append_assoc]
  exact hasSubChars_append_mid _ _ _

/-! ## Transport schedule (for C9) -/

/-- The retry schedule stated by the spec: light attempts `1..maxRetries`
with a backoff of `1000 * 2^(attempt-1)` ms between consecutive attempts
(this is the spec-side description that the embedded `makeRequest` loop is
compared against). -/
def specRetrySchedule (maxRetries : ℕ) : List BaseScraper.FetchEvent :=
  (List.range' 1 maxRetries).flatMap (fun attempt =>
    BaseScraper.FetchEvent.lightAttempt attempt ::
      (if attempt < maxRetries
        then [BaseScraper.FetchEvent.backoff (1000 * 2 ^ (attempt - 1))] else []))

theorem makeRequestGo_allFail (platformName : String)
    (light : ℕ → Except String String) (errs : ℕ → String)
    (hfail : ∀ i, light i = Except.error (errs i)) (m : ℕ) :
    ∀ (k attempt : ℕ) (lastErr : String), 1 ≤ k → attempt + k = m + 1 →
      BaseScraper.makeRequestGo platformName light m k attempt lastErr
        = (Except.error (BaseScraper.requestFailMsg platformName m (errs m)),
           (List.range' attempt k).flatMap (fun a =>
             BaseScraper.FetchEvent.lightAttempt a ::
               (if a < m then [BaseScraper.FetchEvent.backoff (1000 * 2 ^ (a - 1))] else []))) := by
  intro k
  induction k with
  | zero => intro attempt lastErr hk; omega
  | succ k ih =>
    intro attempt lastErr _ hsum
    unfold BaseScraper.makeRequestGo
    rw [hfail attempt]
    simp only []
    cases k with
    | zero =>
      have ham : attempt = m := by omega
      subst ham
      rw [if_neg (lt_irrefl _)]
      unfold BaseScraper.makeRequestGo
      simp [List.range'_one, lt_irrefl]
    | succ k2 =>
      have hlt : attempt < m := by omega
      rw [if_pos hlt]
      rw [ih (attempt + 1) (errs attempt) (by omega) (by omega)]
      conv_rhs => rw [List.range'_succ, List.flatMap_cons]
      simp [hlt]

/-- C9: when every light (axios) attempt fails and the heavy (Puppeteer)
attempt fails, `smartFetch` performs exactly `maxRetries` light attempts
with backoffs `1000 * 2^(attempt-1)` ms between consecutive attempts,
followed by exactly one heavy attempt, and fails with a message containing
both the last light-transport error message and the heavy-transport error
message. -/
theorem claim_C9 (platformName : String) (light : ℕ → Except String String)
    (errs : ℕ → String) (heavyMsg : String) (maxRetries : ℕ)
    (hm : 1 ≤ maxRetries) (hfail : ∀ i, light i = Except.error (errs i)) :
    ∃ msg,
      BaseScraper.smartFetch platformName light (Except.error heavyMsg) maxRetries
          = (Except.error msg,
             specRetrySchedule maxRetries ++ [BaseScraper.FetchEvent.heavyAttempt])
      ∧ jsIncludes msg (errs maxRetries) = true
      ∧ jsIncludes msg heavyMsg = true := by
  have hreq : BaseScraper.makeRequest platformName light maxRetries
      = (Except.error (BaseScraper.requestFailMsg platformName maxRetries (errs maxRetries)),
         specRetrySchedule maxRetries) := by
    unfold BaseScraper.makeRequest specRetrySchedule
    exact makeRequestGo_allFail platformName light errs hfail maxRetries maxRetries 1 ""
      hm (by omega)
  refine ⟨BaseScraper.allFailMsg platformName
    (BaseScraper.requestFailMsg platformName maxRetries (errs maxRetries)) heavyMsg, ?_, ?_, ?_⟩
  · unfold BaseScraper.smartFetch
    rw [hreq]
  · exact jsIncludes_of_split _
      ("All fetch methods failed for " ++ platformName ++ ": axios(" ++
        ("Failed to fetch from " ++ platformName ++ " after " ++ toString maxRetries
          ++ " attempts: "))
      (errs maxRetries) ("), puppeteer(" ++ heavyMsg ++ ")") (by
        unfold BaseScraper.allFailMsg BaseScraper.requestFailMsg
        simp [String.append_assoc])
  · exact jsIncludes_of_split _
      ("All fetch methods failed for " ++ platformName ++ ": axios(" ++
        BaseScraper.requestFailMsg platformName maxRetries (errs maxRetries) ++ "), puppeteer(")
      heavyMsg ")" (by
        unfold BaseScraper.allFailMsg
        simp [String.append_assoc])

/-- Witness for C9 at the default `maxRetries = 3`. -/
theorem claim_C9_witness :
    ∃ msg,
      BaseScraper.smartFetch "amazon" (fun _ => Except.error "connect ECONNREFUSED")
          (Except.error "net::ERR_TIMED_OUT") 3
          = (Except.error msg, specRetrySchedule 3 ++ [BaseScraper.FetchEvent.heavyAttempt])
      ∧ jsIncludes msg "connect ECONNREFUSED" = true
      ∧ jsIncludes msg "net::ERR_TIMED_OUT" = true :=
  claim_C9 "amazon" (fun _ => Except.error "connect ECONNREFUSED")
    (fun _ => "connect ECONNREFUSED") "net::ERR_TIMED_OUT" 3 (by decide) (fun _ => rfl)

/-- Witness for C10 on a concrete raw-result list. -/
theorem claim_C10_witness :
    (BaseScraper.normalizeOne "amazon"
        { title := some "Apple iPhone 15 (128GB) Black", price := some 50000,
          url := "https://example.test/p", availability := some "out_of_stock" }).currency
      = "INR" :=
  (claim_C10 "amazon"
    [{ title := some "Apple iPhone 15 (128GB) Black", price := some 50000,
       url := "https://example.test/p", availability := some "out_of_stock" }]
    _ (by decide)).1

end PriceTracker
